import Mathlib

/-!
Shallow embedding of `src/MyApp/app/index.tsx` (the `DictionaryApp`
React Native component) and proofs about its specification.

The component holds four state slots (`word`, `definition`, `loading`,
`error`), one effectful handler (`fetchDefinition`) and a declarative
rendering tree.  The handler is an `async` function whose only suspension
point is the single `fetch`/`json()` pair; we embed it as a pure state
transformer that receives the outcome of that network interaction as an
explicit argument and returns the successor state together with the URL of
the request it issued (or `none` when validation stopped it before any
request).  JavaScript truthiness is embedded faithfully: a string is falsy
exactly when it is empty, so `data.title || fallback`, `def.example && …`
and `error && …` all treat the empty string like an absent value.
-/

namespace DictionaryApp

/-- `interface Definition { definition: string; example?: string }`.
The optional `example` field is `none` when absent. -/
structure Definition where
  definition : String
  «example» : Option String
deriving DecidableEq

/-- `interface Meaning { partOfSpeech: string; definitions: Definition[] }`. -/
structure Meaning where
  partOfSpeech : String
  definitions : List Definition
deriving DecidableEq

/-- `interface DictionaryEntry { word: string; meanings: Meaning[] }`. -/
structure DictionaryEntry where
  word : String
  meanings : List Meaning
deriving DecidableEq

/-- `type ApiResponse = DictionaryEntry[]` — the API returns an array of
dictionary entries. -/
abbrev ApiResponse : Type := List DictionaryEntry

/-- The four `useState` slots of the component:
`word`, `definition`, `loading`, `error`. -/
structure AppState where
  word : String
  definition : Option ApiResponse
  loading : Bool
  error : String
deriving DecidableEq

/-- The initial state on mount: `useState("")`, `useState(null)`,
`useState(false)`, `useState("")`. -/
def initialState : AppState :=
  { word := "", definition := none, loading := false, error := "" }

/-- Outcome of the single awaited `fetch` + `response.json()` interaction:
`success data` is a 2xx response whose body parsed as `ApiResponse`;
`apiError title` is a non-2xx response whose body parsed as an object whose
`title` field is `title` (`none` when the field is absent); `exn cause` is
any exception thrown by the request or the JSON parse (the handler ignores
the caught value, so `cause` is an uninterpreted description). -/
inductive FetchOutcome where
  | success (data : ApiResponse)
  | apiError (title : Option String)
  | exn (cause : String)
deriving DecidableEq

/-- JavaScript `String.prototype.trim()`: remove whitespace from both ends.
`String.trim` from the core library does not reduce in the kernel, so the
same function is written over the character list. -/
def jsTrim (s : String) : String :=
  String.mk (((s.data.dropWhile Char.isWhitespace).reverse.dropWhile
    Char.isWhitespace).reverse)

/-- The request URL template
`https://api.dictionaryapi.dev/api/v2/entries/en/${word}` without the
interpolated word. -/
def baseUrl : String := "https://api.dictionaryapi.dev/api/v2/entries/en/"

/-- `(data as ApiError).title || "Could not find a definition."`:
JavaScript `||` falls through on any falsy value, so both an absent `title`
and an empty-string `title` yield the fallback. -/
def titleOrFallback : Option String → String
  | some t => if t = "" then "Could not find a definition." else t
  | none => "Could not find a definition."

/-- The state after the three writes that precede the request:
`setLoading(true); setDefinition(null); setError("")`. -/
def preRequest (s : AppState) : AppState :=
  { s with loading := true, definition := none, error := "" }

/-- The `try`/`catch`/`finally` block applied to the state that entered it:
on `response.ok` store the parsed body; on a non-2xx response store
`data.title || fallback`; on an exception store the fixed network message;
`finally` sets `loading` to `false` on every path. -/
def resolve (s : AppState) (out : FetchOutcome) : AppState :=
  let s1 : AppState :=
    match out with
    | .success data => { s with definition := some data }
    | .apiError title => { s with error := titleOrFallback title }
    | .exn _ =>
        { s with error := "An error occurred. Please check your network connection." }
  { s1 with loading := false }

/-- The handler `fetchDefinition`.  `if (!word.trim())` sets the validation
error and returns without a request; otherwise the pre-request writes run,
the GET to `baseUrl ++ word` is issued (the raw, untrimmed `word` is
interpolated) and the outcome is resolved.  The second component is the URL
of the request issued, `none` when none was. -/
def fetchDefinition (s : AppState) (out : FetchOutcome) :
    AppState × Option String :=
  if jsTrim s.word = "" then
    ({ s with error := "Please enter a word." }, none)
  else
    (resolve (preRequest s) out, some (baseUrl ++ s.word))

/-- One rendered definition block: the `Text` reading
`{index + 1}. {def.definition}` and, when `def.example` is truthy, the
`Text` reading `Example: "{def.example}"`. -/
structure RenderedDef where
  line : String
  exampleLine : Option String
deriving DecidableEq

/-- One rendered `FlatList` item: the part-of-speech header `Text` followed
by the definition blocks. -/
structure RenderedMeaning where
  partOfSpeech : String
  defs : List RenderedDef
deriving DecidableEq

/-- The dynamic part of the component's rendering tree: the
`{loading && <ActivityIndicator/>}` spinner, the `{error && <Text/>}` error
line, and the `{definition && <FlatList/>}` result list (with its rendered
items); each is `none`/`false` when its guard is falsy. -/
structure Render where
  spinner : Bool
  errorLine : Option String
  resultList : Option (List RenderedMeaning)
deriving DecidableEq

/-- One iteration of `item.definitions.map((def, index) => …)`: the line
text uses the 1-based number `index + 1`, and the example `Text` is
rendered only when `def.example` is truthy (present and non-empty). -/
def renderDefinitionBlock (index : Nat) (d : Definition) : RenderedDef :=
  { line := toString (index + 1) ++ ". " ++ d.definition,
    exampleLine :=
      match d.«example» with
      | some e => if e = "" then none else some ("Example: \"" ++ e ++ "\"")
      | none => none }

/-- `item.definitions.map((def, index) => …)` unrolled with its running
index. -/
def renderDefs (index : Nat) : List Definition → List RenderedDef
  | [] => []
  | d :: ds => renderDefinitionBlock index d :: renderDefs (index + 1) ds

/-- `renderDefinition`, the `renderItem` of the `FlatList`: the
part-of-speech header followed by the numbered definition blocks. -/
def renderDefinition (item : Meaning) : RenderedMeaning :=
  { partOfSpeech := item.partOfSpeech,
    defs := renderDefs 0 item.definitions }

/-- The component's returned tree restricted to its dynamic parts.  The
`FlatList` receives `definition[0]?.meanings`: when the stored array is
empty the optional chaining yields `undefined` and the list renders no
items, embedded here as the empty item list. -/
def renderApp (s : AppState) : Render :=
  { spinner := s.loading,
    errorLine := if s.error = "" then none else some s.error,
    resultList :=
      s.definition.map (fun d =>
        (match d.head? with
         | some entry => entry.meanings
         | none => []).map renderDefinition) }

/-- User-driven events: `onChangeText={setWord}` and a submission
(`onPress` / `onSubmitEditing`, both bound to `fetchDefinition`) together
with the outcome of the network interaction it performs, if any. -/
inductive Event where
  | changeText (t : String)
  | submit (out : FetchOutcome)

/-- The state transition of one event. -/
def step (s : AppState) (e : Event) : AppState :=
  match e with
  | .changeText t => { s with word := t }
  | .submit out => (fetchDefinition s out).1

/-- The state reached from mount by a sequence of events. -/
def runEvents (evs : List Event) : AppState :=
  evs.foldl step initialState

/-! ### Spec-side definitions

The following definitions follow the specification's words, not the
source: URL-encoding (the spec's `<urlencoded word>`), and the extraction
of the input fields back out of the rendered text (the spec's round-trip
property). -/

/-- Hexadecimal digit of a value below 16, upper case. -/
def hexDigit (n : Nat) : Char :=
  Char.ofNat (if n < 10 then 48 + n else 55 + n)

/-- Percent-encoding of one byte value. -/
def percentByte (b : Nat) : String :=
  String.mk [Char.ofNat 37, hexDigit (b / 16), hexDigit (b % 16)]

/-- UTF-8 bytes of a code point, as natural numbers. -/
def utf8Bytes (n : Nat) : List Nat :=
  if n < 128 then [n]
  else if n < 2048 then [192 + n / 64, 128 + n % 64]
  else if n < 65536 then
    [224 + n / 4096, 128 + (n / 64) % 64, 128 + n % 64]
  else
    [240 + n / 262144, 128 + (n / 4096) % 64, 128 + (n / 64) % 64,
      128 + n % 64]

/-- The characters `encodeURIComponent` leaves unescaped:
letters, digits, and `- _ . ! ~ * ' ( )`. -/
def isUriUnreserved (c : Char) : Bool :=
  c.isAlpha || c.isDigit ||
    c ∈ ['-', '_', '.', '!', '~', '*', Char.ofNat 39, '(', ')']

/-- Follows the spec's words: JavaScript `encodeURIComponent`, the
URL-encoding of a word appended to a URL path.  Unreserved characters are
kept, every other character is replaced by the percent-encoding of its
UTF-8 bytes. -/
def encodeURIComponent (s : String) : String :=
  String.join (s.data.map fun c =>
    if isUriUnreserved c then String.singleton c
    else String.join ((utf8Bytes c.toNat).map percentByte))

/-- Follows the spec's words: read one definition back out of a rendered
definition block, stripping the `index + 1`-numbered prefix from the line
and the `Example: "…"` wrapper from the example line. -/
def extractDef (index : Nat) (r : RenderedDef) : Definition :=
  { definition :=
      String.mk (r.line.data.drop (toString (index + 1) ++ ". ").length),
    «example» := r.exampleLine.map (fun e =>
      String.mk ((e.data.drop 10).dropLast)) }

/-- Extraction of a rendered block list with its running index. -/
def extractDefs (index : Nat) : List RenderedDef → List Definition
  | [] => []
  | r :: rs => extractDef index r :: extractDefs (index + 1) rs

/-- Follows the spec's words: read one meaning back out of a rendered
`FlatList` item. -/
def extractMeaning (r : RenderedMeaning) : Meaning :=
  { partOfSpeech := r.partOfSpeech,
    definitions := extractDefs 0 r.defs }

/-- Follows the spec's words: the text extracted from the rendered result
list, an empty list when no list is rendered. -/
def extractAll (rl : Option (List RenderedMeaning)) : List Meaning :=
  (rl.getD []).map extractMeaning

/-- No definition of the meaning carries a present-but-empty example
string (the JavaScript-falsy case that renders no example line). -/
def noEmptyExample (m : Meaning) : Prop :=
  ∀ d ∈ m.definitions, d.«example» ≠ some ""

instance (m : Meaning) : Decidable (noEmptyExample m) :=
  inferInstanceAs (Decidable (∀ d ∈ m.definitions, d.«example» ≠ some ""))

/-! ### Helper lemmas -/

/-- Every event keeps the loading flag false: `changeText` does not touch
it, a validated submission ends in the `finally` that clears it, and a
rejected submission leaves it unchanged. -/
theorem step_loading_false (s : AppState) (e : Event) (h : s.loading = false) :
    (step s e).loading = false := by
  cases e with
  | changeText t => simpa [step] using h
  | submit out =>
      by_cases hw : jsTrim s.word = "" <;>
        simp [step, fetchDefinition, hw, resolve, h]

/-- The loading flag is false in every state reachable from mount. -/
theorem runEvents_loading_false (evs : List Event) :
    (runEvents evs).loading = false := by
  suffices h : ∀ s : AppState, s.loading = false →
      (evs.foldl step s).loading = false from h initialState rfl
  induction evs with
  | nil => exact fun s hs => hs
  | cons e evs ih =>
      exact fun s hs => ih (step s e) (step_loading_false s e hs)

/-! ### Claims about `fetchDefinition` -/

/-- Claim C1: whenever the trimmed query text is empty, `fetchDefinition`
sets the error message to the fixed validation string
`Please enter a word.`, issues no HTTP request, and never enters the
loading state (the loading flag is left untouched). -/
theorem spec_c1 (s : AppState) (out : FetchOutcome)
    (h : jsTrim s.word = "") :
    (fetchDefinition s out).1.error = "Please enter a word." ∧
    (fetchDefinition s out).2 = none ∧
    (fetchDefinition s out).1.loading = s.loading := by
  simp [fetchDefinition, h]

/-- Witness for C1 at the mount state (empty query) with a success
outcome standing by. -/
theorem spec_c1_witness :
    (fetchDefinition initialState (FetchOutcome.success [])).1.error
      = "Please enter a word." ∧
    (fetchDefinition initialState (FetchOutcome.success [])).2 = none ∧
    (fetchDefinition initialState (FetchOutcome.success [])).1.loading
      = initialState.loading :=
  spec_c1 initialState (FetchOutcome.success []) rfl

/-- Claim C2: on every validated invocation the loading flag is true in
the state from which the request is issued (the handler resolves the
outcome from exactly that pre-request state), it is false after the
handler completes on every outcome, and it is false in every state
reachable from mount, so loading never sticks and is mutually exclusive
with the terminal success/error states at steady state. -/
theorem spec_c2 (s : AppState) (out : FetchOutcome) (evs : List Event)
    (h : jsTrim s.word ≠ "") :
    (preRequest s).loading = true ∧
    (fetchDefinition s out).1 = resolve (preRequest s) out ∧
    (fetchDefinition s out).1.loading = false ∧
    (runEvents evs).loading = false := by
  refine ⟨rfl, ?_, ?_, runEvents_loading_false evs⟩
  · simp [fetchDefinition, h]
  · simp [fetchDefinition, h, resolve]

/-- Witness for C2 on the non-blank query `hello` with a transport
exception as the outcome. -/
theorem spec_c2_witness :
    (preRequest (AppState.mk "hello" none false "")).loading = true ∧
    (fetchDefinition (AppState.mk "hello" none false "")
        (FetchOutcome.exn "timeout")).1
      = resolve (preRequest (AppState.mk "hello" none false ""))
          (FetchOutcome.exn "timeout") ∧
    (fetchDefinition (AppState.mk "hello" none false "")
        (FetchOutcome.exn "timeout")).1.loading = false ∧
    (runEvents [Event.changeText "hi"]).loading = false :=
  spec_c2 (AppState.mk "hello" none false "") (FetchOutcome.exn "timeout")
    [Event.changeText "hi"] (by decide)

/-- Counterexample to C3 as stated: a non-2xx body whose `title` field is
present but equal to the empty string does not become the error message;
the JavaScript `||` treats it as falsy and the fallback is stored
instead. -/
theorem spec_c3_counterexample :
    (fetchDefinition (AppState.mk "hello" none false "")
        (FetchOutcome.apiError (some ""))).1.error
      = "Could not find a definition." ∧
    "Could not find a definition." ≠ ("" : String) := by
  exact ⟨by decide, by decide⟩

/-- Claim C3 (amended): for every non-2xx response, the body's `title`
becomes the error message when it is a non-empty string; when the `title`
field is absent — or present but empty, which JavaScript `||` treats the
same way — the fixed fallback `Could not find a definition.` is stored. -/
theorem spec_c3 (s : AppState) (title : Option String)
    (h : jsTrim s.word ≠ "") :
    (∀ t, title = some t → t ≠ "" →
      (fetchDefinition s (FetchOutcome.apiError title)).1.error = t) ∧
    (title = none →
      (fetchDefinition s (FetchOutcome.apiError title)).1.error
        = "Could not find a definition.") ∧
    (title = some "" →
      (fetchDefinition s (FetchOutcome.apiError title)).1.error
        = "Could not find a definition.") := by
  refine ⟨?_, ?_, ?_⟩
  · intro t ht hne
    subst ht
    simp [fetchDefinition, h, resolve, preRequest, titleOrFallback, hne]
  · intro ht
    subst ht
    simp [fetchDefinition, h, resolve, preRequest, titleOrFallback]
  · intro ht
    subst ht
    simp [fetchDefinition, h, resolve, preRequest, titleOrFallback]

/-- Witness for C3 on the spec's own example: a non-2xx body carrying
`title = No Definitions Found` yields exactly that error message. -/
theorem spec_c3_witness :
    (fetchDefinition (AppState.mk "hello" none false "")
        (FetchOutcome.apiError (some "No Definitions Found"))).1.error
      = "No Definitions Found" :=
  (spec_c3 (AppState.mk "hello" none false "")
      (some "No Definitions Found") (by decide)).1
    "No Definitions Found" rfl (by decide)

/-- Claim C4: whatever the cause of the thrown exception, the error
message is the single fixed network fallback string, and the previously
stored result is cleared (the pre-request `setDefinition(null)` is never
undone on this path). -/
theorem spec_c4 (s : AppState) (cause : String)
    (h : jsTrim s.word ≠ "") :
    (fetchDefinition s (FetchOutcome.exn cause)).1.error
      = "An error occurred. Please check your network connection." ∧
    (fetchDefinition s (FetchOutcome.exn cause)).1.definition = none := by
  simp [fetchDefinition, h, resolve, preRequest]

/-- Witness for C4 on a state that still holds a previously fetched
result, with a DNS-failure cause. -/
theorem spec_c4_witness :
    (fetchDefinition
        (AppState.mk "hello" (some [DictionaryEntry.mk "old" []]) false "")
        (FetchOutcome.exn "dns failure")).1.error
      = "An error occurred. Please check your network connection." ∧
    (fetchDefinition
        (AppState.mk "hello" (some [DictionaryEntry.mk "old" []]) false "")
        (FetchOutcome.exn "dns failure")).1.definition = none :=
  spec_c4 (AppState.mk "hello" (some [DictionaryEntry.mk "old" []]) false "")
    "dns failure" (by decide)

/-- Counterexample to C6 as stated: for the query `a b` the code issues
the request to the raw interpolation `baseUrl ++ "a b"`, which differs
from the URL built with the URL-encoded word `a%20b`. -/
theorem spec_c6_counterexample :
    (fetchDefinition (AppState.mk "a b" none false "")
        (FetchOutcome.success [])).2
      = some "https://api.dictionaryapi.dev/api/v2/entries/en/a b" ∧
    baseUrl ++ encodeURIComponent "a b"
      = "https://api.dictionaryapi.dev/api/v2/entries/en/a%20b" ∧
    ("https://api.dictionaryapi.dev/api/v2/entries/en/a b" : String)
      ≠ "https://api.dictionaryapi.dev/api/v2/entries/en/a%20b" := by
  refine ⟨by decide, by decide, by decide⟩

/-- Claim C6 (amended): every validated submission issues exactly one
HTTP GET whose URL is the fixed base
`https://api.dictionaryapi.dev/api/v2/entries/en/` followed by the raw,
untrimmed query text, with no URL encoding applied. -/
theorem spec_c6 (s : AppState) (out : FetchOutcome)
    (h : jsTrim s.word ≠ "") :
    (fetchDefinition s out).2 = some (baseUrl ++ s.word) := by
  simp [fetchDefinition, h]

/-- Witness for C6 on the query `hello`. -/
theorem spec_c6_witness :
    (fetchDefinition (AppState.mk "hello" none false "")
        (FetchOutcome.success [])).2
      = some (baseUrl ++ "hello") :=
  spec_c6 (AppState.mk "hello" none false "") (FetchOutcome.success [])
    (by decide)

/-- Claim C9: a rejected (blank) submission writes only the error slot:
the query text, the stored result and the loading flag keep their prior
values, and a previously fetched result is still rendered alongside the
new validation error. -/
theorem spec_c9 (s : AppState) (out : FetchOutcome)
    (h : jsTrim s.word = "") :
    (fetchDefinition s out).1.word = s.word ∧
    (fetchDefinition s out).1.definition = s.definition ∧
    (fetchDefinition s out).1.loading = s.loading ∧
    (fetchDefinition s out).1.error = "Please enter a word." ∧
    (renderApp (fetchDefinition s out).1).resultList
      = (renderApp s).resultList := by
  simp [fetchDefinition, h, renderApp]

/-- Witness for C9 on a whitespace-only query over a state that still
holds a fetched result. -/
theorem spec_c9_witness :
    (fetchDefinition
        (AppState.mk " " (some [DictionaryEntry.mk "hi" []]) false "")
        (FetchOutcome.success [])).1.word
      = (AppState.mk " " (some [DictionaryEntry.mk "hi" []]) false "").word ∧
    (fetchDefinition
        (AppState.mk " " (some [DictionaryEntry.mk "hi" []]) false "")
        (FetchOutcome.success [])).1.definition
      = (AppState.mk " " (some [DictionaryEntry.mk "hi" []]) false
          "").definition ∧
    (fetchDefinition
        (AppState.mk " " (some [DictionaryEntry.mk "hi" []]) false "")
        (FetchOutcome.success [])).1.loading
      = (AppState.mk " " (some [DictionaryEntry.mk "hi" []]) false
          "").loading ∧
    (fetchDefinition
        (AppState.mk " " (some [DictionaryEntry.mk "hi" []]) false "")
        (FetchOutcome.success [])).1.error = "Please enter a word." ∧
    (renderApp (fetchDefinition
        (AppState.mk " " (some [DictionaryEntry.mk "hi" []]) false "")
        (FetchOutcome.success [])).1).resultList
      = (renderApp (AppState.mk " " (some [DictionaryEntry.mk "hi" []])
          false "")).resultList :=
  spec_c9 (AppState.mk " " (some [DictionaryEntry.mk "hi" []]) false "")
    (FetchOutcome.success []) (by decide)

/-! ### Claims about the rendering -/

/-- Dropping the leading copy of `a` from `a ++ x` recovers `x`. -/
theorem data_drop_append (a x : String) :
    String.mk ((a ++ x).data.drop a.length) = x := by
  rw [String.data_append]
  show String.mk ((a.data ++ x.data).drop a.data.length) = x
  rw [List.drop_left]

/-- Stripping the `Example: "…"` wrapper recovers the example text. -/
theorem extract_exampleLine (e : String) :
    String.mk ((("Example: \"" ++ e ++ "\"").data.drop 10).dropLast) = e := by
  have h2 : ("\"" : String).data = [Char.ofNat 34] := rfl
  have h3 : ("Example: \"" : String).data.length = 10 := rfl
  rw [String.data_append, String.data_append, h2, List.append_assoc, ← h3,
    List.drop_left, List.dropLast_concat]

/-- Extraction inverts one rendered definition block as long as the
example is not a present-but-empty string. -/
theorem extractDef_renderDefinitionBlock (i : Nat) (d : Definition)
    (h : d.«example» ≠ some "") :
    extractDef i (renderDefinitionBlock i d) = d := by
  cases d with
  | mk txt ex =>
      cases ex with
      | none =>
          simp only [extractDef, renderDefinitionBlock, Option.map_none']
          congr 1
          exact data_drop_append (toString (i + 1) ++ ". ") txt
      | some e =>
          have he : e ≠ "" := fun hke => h (by simp [hke])
          simp only [extractDef, renderDefinitionBlock, if_neg he,
            Option.map_some']
          congr 1
          · exact data_drop_append (toString (i + 1) ++ ". ") txt
          · congr 1
            exact extract_exampleLine e

/-- Extraction inverts a rendered block list at any starting index. -/
theorem extractDefs_renderDefs (ds : List Definition) (i : Nat)
    (h : ∀ d ∈ ds, d.«example» ≠ some "") :
    extractDefs i (renderDefs i ds) = ds := by
  induction ds generalizing i with
  | nil => rfl
  | cons d ds ih =>
      simp only [renderDefs, extractDefs]
      rw [extractDef_renderDefinitionBlock i d (h d (by simp))]
      rw [ih (i + 1) (fun x hx => h x (by simp [hx]))]

/-- Extraction inverts one rendered meaning. -/
theorem extractMeaning_renderDefinition (m : Meaning)
    (h : noEmptyExample m) :
    extractMeaning (renderDefinition m) = m := by
  cases m with
  | mk p ds =>
      simp only [extractMeaning, renderDefinition]
      congr 1
      exact extractDefs_renderDefs ds 0 h

/-- Extraction inverts the rendered meaning list. -/
theorem extract_render_meanings (ms : List Meaning)
    (h : ∀ m ∈ ms, noEmptyExample m) :
    (ms.map renderDefinition).map extractMeaning = ms := by
  induction ms with
  | nil => rfl
  | cons m ms ih =>
      simp only [List.map_cons]
      rw [extractMeaning_renderDefinition m (h m (by simp))]
      rw [ih (fun x hx => h x (by simp [hx]))]

/-- The rendered blocks at position `j` come from the definition at
position `j`, numbered from the running index. -/
theorem renderDefs_get? (ds : List Definition) (i j : Nat) :
    (renderDefs i ds).get? j
      = (ds.get? j).map (fun d => renderDefinitionBlock (i + j) d) := by
  induction ds generalizing i j with
  | nil => simp [renderDefs]
  | cons d ds ih =>
      cases j with
      | zero => simp [renderDefs]
      | succ j =>
          have := ih (i + 1) j
          simp only [renderDefs, List.get?_cons_succ, this]
          have harith : i + 1 + j = i + (j + 1) := by omega
          rw [harith]

/-- Counterexample to C5 as stated: a definition that carries the example
string `""` renders no example line, because the JavaScript guard
`def.example && …` treats the empty string as falsy; so an example line
does not appear exactly when the definition carries an example. -/
theorem spec_c5_counterexample :
    (Meaning.mk "noun" [Definition.mk "d" (some "")]).definitions.map
        (fun dd => dd.«example») = [some ""] ∧
    (renderDefinition (Meaning.mk "noun" [Definition.mk "d" (some "")])).defs.map
        (fun r => r.exampleLine) = [none] := by
  exact ⟨by decide, by decide⟩

/-- Claim C5 (amended): a success state renders only the first entry
(`result[0]`) — its meanings, each with its part-of-speech header, its
definitions numbered from 1, and an example line exactly when the
definition carries a non-empty example; and the spec's `hello` scenario
renders the `noun` section with the line `1. a greeting` and the example
line `Example: "hello there"`. -/
theorem spec_c5 (s : AppState) (e : DictionaryEntry)
    (rest : List DictionaryEntry) (m : Meaning) (i : Nat) (d : Definition)
    (h : s.definition = some (e :: rest))
    (hd : m.definitions.get? i = some d) :
    (renderApp s).resultList = some (e.meanings.map renderDefinition) ∧
    (renderDefinition m).partOfSpeech = m.partOfSpeech ∧
    (renderDefinition m).defs.get? i = some (renderDefinitionBlock i d) ∧
    (renderDefinitionBlock i d).line
      = toString (i + 1) ++ ". " ++ d.definition ∧
    ((renderDefinitionBlock i d).exampleLine = none ↔
      (d.«example» = none ∨ d.«example» = some "")) ∧
    (∀ ex, d.«example» = some ex → ex ≠ "" →
      (renderDefinitionBlock i d).exampleLine
        = some ("Example: \"" ++ ex ++ "\"")) ∧
    renderApp (AppState.mk "hello"
        (some [DictionaryEntry.mk "hello"
          [Meaning.mk "noun"
            [Definition.mk "a greeting" (some "hello there")]]])
        false "")
      = Render.mk false none
          (some [RenderedMeaning.mk "noun"
            [RenderedDef.mk "1. a greeting"
              (some "Example: \"hello there\"")]]) := by
  refine ⟨?_, rfl, ?_, rfl, ?_, ?_, by decide⟩
  · simp [renderApp, h]
  · show (renderDefs 0 m.definitions).get? i = _
    rw [renderDefs_get? m.definitions 0 i, hd]
    simp
  · cases hx : d.«example» with
    | none => simp [renderDefinitionBlock, hx]
    | some ex =>
        by_cases hex : ex = "" <;> simp [renderDefinitionBlock, hx, hex]
  · intro ex hex hne
    simp [renderDefinitionBlock, hex, hne]

/-- Witness for C5 at the spec's `hello` scenario. -/
theorem spec_c5_witness :
    (renderApp (AppState.mk "hello"
        (some [DictionaryEntry.mk "hello"
          [Meaning.mk "noun"
            [Definition.mk "a greeting" (some "hello there")]]])
        false "")).resultList
      = some ((DictionaryEntry.mk "hello"
          [Meaning.mk "noun"
            [Definition.mk "a greeting" (some "hello there")]]).meanings.map
          renderDefinition) ∧
    (renderDefinition (Meaning.mk "noun"
        [Definition.mk "a greeting" (some "hello there")])).partOfSpeech
      = (Meaning.mk "noun"
          [Definition.mk "a greeting" (some "hello there")]).partOfSpeech ∧
    (renderDefinition (Meaning.mk "noun"
        [Definition.mk "a greeting" (some "hello there")])).defs.get? 0
      = some (renderDefinitionBlock 0
          (Definition.mk "a greeting" (some "hello there"))) ∧
    (renderDefinitionBlock 0
        (Definition.mk "a greeting" (some "hello there"))).line
      = toString (0 + 1) ++ ". "
          ++ (Definition.mk "a greeting" (some "hello there")).definition ∧
    ((renderDefinitionBlock 0
        (Definition.mk "a greeting" (some "hello there"))).exampleLine = none ↔
      ((Definition.mk "a greeting" (some "hello there")).«example» = none ∨
        (Definition.mk "a greeting" (some "hello there")).«example»
          = some "")) ∧
    (∀ ex,
      (Definition.mk "a greeting" (some "hello there")).«example» = some ex →
      ex ≠ "" →
      (renderDefinitionBlock 0
          (Definition.mk "a greeting" (some "hello there"))).exampleLine
        = some ("Example: \"" ++ ex ++ "\"")) ∧
    renderApp (AppState.mk "hello"
        (some [DictionaryEntry.mk "hello"
          [Meaning.mk "noun"
            [Definition.mk "a greeting" (some "hello there")]]])
        false "")
      = Render.mk false none
          (some [RenderedMeaning.mk "noun"
            [RenderedDef.mk "1. a greeting"
              (some "Example: \"hello there\"")]]) :=
  spec_c5 (AppState.mk "hello"
      (some [DictionaryEntry.mk "hello"
        [Meaning.mk "noun"
          [Definition.mk "a greeting" (some "hello there")]]])
      false "")
    (DictionaryEntry.mk "hello"
      [Meaning.mk "noun" [Definition.mk "a greeting" (some "hello there")]])
    [] (Meaning.mk "noun" [Definition.mk "a greeting" (some "hello there")])
    0 (Definition.mk "a greeting" (some "hello there")) rfl rfl

/-- Counterexample to C7 as stated: with two homograph entries and one
present-but-empty example, the text extracted from the rendered list is
the first entry's meanings with the empty example dropped, which differs
from the input's meanings. -/
theorem spec_c7_counterexample :
    extractAll (renderApp (AppState.mk "hello"
        (some [DictionaryEntry.mk "hello"
            [Meaning.mk "noun" [Definition.mk "a" (some "")]],
          DictionaryEntry.mk "hello"
            [Meaning.mk "verb" [Definition.mk "b" none]]])
        false "")).resultList
      = [Meaning.mk "noun" [Definition.mk "a" none]] ∧
    (([DictionaryEntry.mk "hello"
          [Meaning.mk "noun" [Definition.mk "a" (some "")]],
        DictionaryEntry.mk "hello"
          [Meaning.mk "verb" [Definition.mk "b" none]]].map
        DictionaryEntry.meanings).flatten
      = [Meaning.mk "noun" [Definition.mk "a" (some "")],
          Meaning.mk "verb" [Definition.mk "b" none]]) ∧
    ([Meaning.mk "noun" [Definition.mk "a" none]] : List Meaning)
      ≠ [Meaning.mk "noun" [Definition.mk "a" (some "")],
          Meaning.mk "verb" [Definition.mk "b" none]] := by
  refine ⟨by decide, by decide, by decide⟩

/-- Claim C7 (amended): for a success state, extracting the
part-of-speech, definition and example strings back out of the rendered
list recovers exactly the meanings of the first entry of the stored
response, provided no definition of that entry carries a
present-but-empty example string; entries beyond the first are not
reflected in the rendering. -/
theorem spec_c7 (s : AppState) (e : DictionaryEntry)
    (rest : List DictionaryEntry)
    (h : s.definition = some (e :: rest))
    (hm : ∀ m ∈ e.meanings, noEmptyExample m) :
    extractAll (renderApp s).resultList = e.meanings := by
  have hres : (renderApp s).resultList
      = some (e.meanings.map renderDefinition) := by
    simp [renderApp, h]
  rw [extractAll, hres]
  simpa using extract_render_meanings e.meanings hm

/-- Witness for C7 on a one-entry response with a non-empty example. -/
theorem spec_c7_witness :
    extractAll (renderApp (AppState.mk "hello"
        (some [DictionaryEntry.mk "hello"
          [Meaning.mk "noun"
            [Definition.mk "a greeting" (some "hello there")]]])
        false "")).resultList
      = (DictionaryEntry.mk "hello"
          [Meaning.mk "noun"
            [Definition.mk "a greeting" (some "hello there")]]).meanings :=
  spec_c7 (AppState.mk "hello"
      (some [DictionaryEntry.mk "hello"
        [Meaning.mk "noun"
          [Definition.mk "a greeting" (some "hello there")]]])
      false "")
    (DictionaryEntry.mk "hello"
      [Meaning.mk "noun" [Definition.mk "a greeting" (some "hello there")]])
    [] rfl (by decide)

/-- Counterexample to C8 as stated: after a successful fetch of `hello`
followed by clearing the input and submitting again, the reachable state
renders the validation error line and the result list simultaneously. -/
theorem spec_c8_counterexample :
    (renderApp (runEvents
        [Event.changeText "hello",
          Event.submit (FetchOutcome.success
            [DictionaryEntry.mk "hello"
              [Meaning.mk "noun" [Definition.mk "a greeting" none]]]),
          Event.changeText "",
          Event.submit (FetchOutcome.success [])])).errorLine
      = some "Please enter a word." ∧
    (renderApp (runEvents
        [Event.changeText "hello",
          Event.submit (FetchOutcome.success
            [DictionaryEntry.mk "hello"
              [Meaning.mk "noun" [Definition.mk "a greeting" none]]]),
          Event.changeText "",
          Event.submit (FetchOutcome.success [])])).resultList
      = some [RenderedMeaning.mk "noun"
          [RenderedDef.mk "1. a greeting" none]] := by
  exact ⟨by decide, by decide⟩

/-- Claim C8 (amended): the rendering tree is a pure function of the
component state whose three dynamic pieces are gated independently — the
spinner shows exactly when the loading flag is set, the error line
exactly when the error string is non-empty, and the result list exactly
when a result is stored; the idle mount state renders none of them, and
at steady state the spinner is never shown because every reachable state
has a cleared loading flag.  The error line and the result list are not
mutually exclusive: a validation error leaves a stored result rendered. -/
theorem spec_c8 (s : AppState) (evs : List Event) :
    ((renderApp s).spinner = true ↔ s.loading = true) ∧
    ((renderApp s).errorLine ≠ none ↔ s.error ≠ "") ∧
    ((renderApp s).resultList ≠ none ↔ s.definition ≠ none) ∧
    renderApp initialState = Render.mk false none none ∧
    (renderApp (runEvents evs)).spinner = false := by
  refine ⟨Iff.rfl, ?_, ?_, rfl, ?_⟩
  · by_cases he : s.error = "" <;> simp [renderApp, he]
  · cases hd : s.definition <;> simp [renderApp, hd]
  · simpa [renderApp] using runEvents_loading_false evs

/-- Claim C10: a success state holding the empty entry array renders the
result list with no items (`definition[0]?.meanings` is undefined and the
`FlatList` gets no data), and `renderDefinition` is total on every
meaning — one with no definitions renders just its part-of-speech
header. -/
theorem spec_c10 (s : AppState) (p : String) (m : Meaning)
    (h : s.definition = some []) :
    (renderApp s).resultList = some [] ∧
    renderDefinition (Meaning.mk p []) = RenderedMeaning.mk p [] ∧
    (renderDefinition m).partOfSpeech = m.partOfSpeech := by
  refine ⟨?_, rfl, rfl⟩
  simp [renderApp, h]

/-- Witness for C10 on a state holding the empty response array. -/
theorem spec_c10_witness :
    (renderApp (AppState.mk "x" (some []) false "")).resultList = some [] ∧
    renderDefinition (Meaning.mk "noun" []) = RenderedMeaning.mk "noun" [] ∧
    (renderDefinition (Meaning.mk "verb" [Definition.mk "d" none])).partOfSpeech
      = (Meaning.mk "verb" [Definition.mk "d" none]).partOfSpeech :=
  spec_c10 (AppState.mk "x" (some []) false "") "noun"
    (Meaning.mk "verb" [Definition.mk "d" none]) rfl

end DictionaryApp
